import Mathlib

/-!
Shallow embedding of the bzlgen label-resolution core: the workspace path
resolver (`src/workspace.ts`), the TypeScript dependency extractor
(`src/generators/ts/ts.generator.ts`), the buildozer invocation logic, and
the path-escape guard from `src/flags.ts`.  Node's `path` (posix) helpers and
lodash's `kebabCase`, which the source calls as libraries, are modelled
directly on `List Char` so every definition is kernel-computable.
-/

namespace Bzlgen

/-- Tests whether the character list `s` starts with the character list `p`. -/
def beginsL : List Char → List Char → Bool
  | _, [] => true
  | [], _ :: _ => false
  | c :: cs, d :: ds => c == d && beginsL cs ds

/-- Models JavaScript `s.startsWith(p)` on strings. -/
def strBegins (s p : String) : Bool :=
  beginsL s.toList p.toList

/-- Models JavaScript `s.endsWith(p)` on strings. -/
def strEnds (s p : String) : Bool :=
  beginsL s.toList.reverse p.toList.reverse

/-- Splits a character list on a delimiter; models `String.prototype.split`. -/
def splitSegsL (d : Char) : List Char → List (List Char)
  | [] => [[]]
  | c :: cs =>
    if c == d then [] :: splitSegsL d cs
    else
      match splitSegsL d cs with
      | [] => [[c]]
      | r :: rs => (c :: r) :: rs

/-- The `/`-separated segments of a path string (`p.split(sep)` with posix sep). -/
def segsOf (p : String) : List String :=
  (splitSegsL '/' p.toList).map List.asString

/-- Joins segments back with `/` separators. -/
def sjoin : List String → String
  | [] => ""
  | [s] => s
  | s :: rest => s ++ "/" ++ sjoin rest

/-- Core of node `path.normalize`: drops empty and `.` segments and resolves
`..` against the accumulated stack (leading `..`s are kept on relative paths
and dropped on absolute ones). -/
def normSegs (abs : Bool) : List String → List String → List String
  | acc, [] => acc.reverse
  | acc, s :: rest =>
    if s = "" || s = "." then normSegs abs acc rest
    else if s = ".." then
      match acc with
      | [] => if abs then normSegs abs [] rest else normSegs abs [".."] rest
      | top :: tl =>
        if top = ".." then normSegs abs (".." :: top :: tl) rest
        else normSegs abs tl rest
    else normSegs abs (s :: acc) rest

/-- Models node `path.normalize` (posix) for slash-separated paths. -/
def normalize (p : String) : String :=
  let abs := strBegins p "/"
  let core := sjoin (normSegs abs [] (segsOf p))
  if abs then "/" ++ core else if core = "" then "." else core

/-- Models node `path.join(a, b)` (posix): concatenation followed by
normalization, with node's empty-argument conventions. -/
def pjoin (a b : String) : String :=
  if a = "" && b = "" then "."
  else if a = "" then normalize b
  else if b = "" then normalize a
  else normalize (a ++ "/" ++ b)

/-- Models node `posix.join(...parts)` over a list of segments. -/
def pjoinList (parts : List String) : String :=
  let joined := sjoin (parts.filter (· ≠ ""))
  if joined = "" then "." else normalize joined

/-- Result type of node `path.parse`. -/
structure ParsedPath where
  dir : String
  base : String
  name : String
  ext : String
deriving DecidableEq

/-- Index (from the front) of the last `.` occurring at a position `> 0`,
matching node's rule that a leading dot starts the name, not the extension. -/
def lastDotIdxAux : List Char → Nat → Option Nat → Option Nat
  | [], _, best => best
  | c :: cs, i, best =>
    lastDotIdxAux cs (i + 1) (if c == '.' && decide (0 < i) then some i else best)

/-- Splits a file base name into `(name, ext)` as node `path.parse` does. -/
def extSplit (base : String) : String × String :=
  match lastDotIdxAux base.toList 0 none with
  | none => (base, "")
  | some i => ((base.toList.take i).asString, (base.toList.drop i).asString)

/-- Models node `path.parse` (the `dir`, `base`, `name`, `ext` fields used by
the source). -/
def pparse (p : String) : ParsedPath :=
  let segs := segsOf p
  let base := segs.getLastD ""
  let dir0 := sjoin segs.dropLast
  let dir := if dir0 = "" && strBegins p "/" && decide (1 < segs.length) then "/" else dir0
  let ne := extSplit base
  ⟨dir, base, ne.1, ne.2⟩

/-- Word splitter for the lodash `kebabCase` model: words break at
non-alphanumeric characters and at lower/digit→upper camel boundaries. -/
def kebabSplit : List Char → List Char → List (List Char)
  | cur, [] => if cur.isEmpty then [] else [cur.reverse]
  | cur, c :: cs =>
    if c.isAlpha || c.isDigit then
      if c.isUpper && (match cur with | d :: _ => d.isLower || d.isDigit | [] => false) then
        cur.reverse :: kebabSplit [c] cs
      else kebabSplit (c :: cur) cs
    else
      if cur.isEmpty then kebabSplit [] cs else cur.reverse :: kebabSplit [] cs

/-- Joins words with dashes. -/
def joinDash : List String → String
  | [] => ""
  | [s] => s
  | s :: rest => s ++ "-" ++ joinDash rest

/-- Models lodash `kebabCase` as used on file base names. -/
def kebabCase (s : String) : String :=
  joinDash ((kebabSplit [] s.toList).map (fun w => (w.map Char.toLower).asString))

/-- Models the global dash-to-separator replacement (`snake.replace` with the
dash regex) from `Workspace.getLabelForFile`. -/
def replaceDash (sep : String) (s : String) : String :=
  (s.toList.flatMap (fun c => if c == '-' then sep.toList else [c])).asString

/-- Modelled from the spec: `src/label.ts` is absent from the source tree; the
spec's data model (§3) gives a Label an optional `repository` qualifier
(empty = current workspace), a slash-separated `package` path, and a `target`
name defaulting to the package's last segment, serialized as
`@repo//package:target` with the defaults omitted. -/
structure Label where
  repository : String
  pkg : String
  target : String
deriving DecidableEq

/-- Splits a character list at the first `//`, if any. -/
def splitAtDS : List Char → List Char × List Char
  | [] => ([], [])
  | '/' :: '/' :: rest => ([], rest)
  | c :: rest =>
    match splitAtDS rest with
    | (a, b) => (c :: a, b)

/-- Splits a character list at the first `:`, if any. -/
def splitAtColon : List Char → List Char × Option (List Char)
  | [] => ([], none)
  | ':' :: rest => ([], some rest)
  | c :: rest =>
    match splitAtColon rest with
    | (a, b) => (c :: a, b)

/-- Modelled from the spec: `Label.parseAbsolute` parses the canonical string
form `@repo//package:target` (repo and explicit target optional, the target
defaulting to the package's last segment). -/
def Label.parseAbsolute (s : String) : Label :=
  let pre := (splitAtDS s.toList).1
  let post := (splitAtDS s.toList).2
  let repo := match pre with
    | '@' :: rs => rs.asString
    | _ => ""
  let pkg := (splitAtColon post).1.asString
  let target := match (splitAtColon post).2 with
    | some t => t.asString
    | none => (segsOf pkg).getLastD ""
  ⟨repo, pkg, target⟩

/-- Modelled from the spec: the canonical serialization (`Label.toString` in
the source), omitting an empty repository and a target equal to the package's
last segment. -/
def Label.toStr (l : Label) : String :=
  (if l.repository = "" then "" else "@" ++ l.repository) ++ "//" ++ l.pkg ++
    (if l.target = (segsOf l.pkg).getLastD "" then "" else ":" ++ l.target)

/-- Kind of a filesystem node, as distinguished by `lstatSync(...).isFile()`. -/
inductive FsNode where
  | file
  | dir
deriving DecidableEq

/-- A snapshot of the filesystem: absolute path → node kind.  `lookup`
returning `none` models `lstatSync` throwing for a missing path. -/
structure Fs where
  entries : List (String × FsNode)
deriving DecidableEq

/-- Looks a path up in the filesystem snapshot. -/
def Fs.lookup (fs : Fs) (p : String) : Option FsNode :=
  fs.entries.lookup p

/-- The `Workspace` state from `src/workspace.ts`: flags relevant to
resolution, the cached top-level listing of `base_dir` (read once per
invocation), the static label mapping (a `Map`, so keys are unique), the
bazel-query oracle (result of the external `bzl query` subprocess per file
path; the per-invocation cache is a pure optimization and does not change
results), and the filesystem snapshot consulted by `lstatSync`. -/
structure Workspace where
  base_dir : String
  path : String
  listing : List String
  label_mapping : List (String × String)
  suffix_separator : String
  use_bazel_query : Bool
  query : String → Option Label
  fs : Fs

/-- `Workspace.getPathFromBaseDir`: `normalize(this.getPath())`. -/
def Workspace.getPathFromBaseDir (ws : Workspace) : String :=
  normalize ws.path

/-- `Workspace.isFile`: whether `base_dir/path` is a regular file. -/
def Workspace.isFile (ws : Workspace) : Bool :=
  ws.fs.lookup (pjoin ws.base_dir ws.path) == some FsNode.file

/-- `Workspace.getPathAsDirectory`: the directory containing the analyzed
path when it is a file, otherwise the analyzed path itself. -/
def Workspace.getPathAsDirectory (ws : Workspace) : String :=
  if ws.isFile then (pparse ws.getPathFromBaseDir).dir else ws.getPathFromBaseDir

/-- `Workspace.isWorkspaceRelative`: the first segment of the normalized path
is a member of the cached top-level listing of `base_dir`. -/
def Workspace.isWorkspaceRelative (ws : Workspace) (p : String) : Bool :=
  ws.listing.contains ((segsOf (normalize p)).headD "")

/-- `Workspace.resolveRelativeToWorkspace`: a workspace-relative path is
returned unchanged; anything else is joined onto the analyzed directory. -/
def Workspace.resolveRelativeToWorkspace (ws : Workspace) (p : String) : String :=
  if ws.isWorkspaceRelative p then p else pjoin ws.getPathAsDirectory p

/-- Errors produced by the embedded resolution functions: `fsMissing` models
`lstatSync` throwing on a missing path, `noLabel` the thrown
`Unable to generate label for` error, and `outOfFuel` marks that the
recursion in `resolveAbsolute` did not terminate within the given fuel. -/
inductive RErr where
  | fsMissing (p : String)
  | noLabel (imp : String)
  | outOfFuel
deriving DecidableEq

/-- `Workspace.resolveAbsolute`, made total by fuel: the source recurses as
`resolveAbsolute(resolveRelativeToWorkspace(path))` with no depth guard, so
termination is exactly "some fuel suffices". -/
def Workspace.resolveAbsoluteF (ws : Workspace) : Nat → String → Except RErr String
  | 0, _ => .error .outOfFuel
  | fuel + 1, p =>
    if strBegins p "/" then .ok p
    else if ws.isWorkspaceRelative p then .ok (pjoin ws.base_dir p)
    else ws.resolveAbsoluteF fuel (ws.resolveRelativeToWorkspace p)

/-- The key used by `tryResolveLabelFromStaticMapping`: the import is
normalized to workspace-relative form only when a relative prefix is supplied
and the import starts with it. -/
def staticKey (ws : Workspace) (imp : String) (relPre : Option String) : String :=
  match relPre with
  | some pre => if strBegins imp pre then ws.resolveRelativeToWorkspace imp else imp
  | none => imp

/-- `Workspace.tryResolveLabelFromStaticMapping`: an exact lookup in the
static label mapping, falling back to the optional default. -/
def Workspace.tryResolveLabelFromStaticMapping (ws : Workspace) (imp : String)
    (defaultValue : Option String) (relPre : Option String) : Option Label :=
  match ws.label_mapping.lookup (staticKey ws imp relPre) with
  | some v => some (Label.parseAbsolute v)
  | none => defaultValue.map Label.parseAbsolute

/-- Appends the optional explicit target to a package path, as
`Workspace.getLabelFor` does before parsing. -/
def labelCore (lbl : String) (target : Option String) : String :=
  match target with
  | some t => lbl ++ ":" ++ t
  | none => lbl

/-- `Workspace.getLabelFor`: static mapping first, then an `lstatSync` on the
resolved absolute path — a file keeps only its directory as the package. -/
def Workspace.getLabelFor (ws : Workspace) (fuel : Nat) (path : String)
    (target : Option String) : Except RErr Label :=
  match ws.tryResolveLabelFromStaticMapping (ws.resolveRelativeToWorkspace path) none none with
  | some l => .ok l
  | none =>
    match ws.resolveAbsoluteF fuel (ws.resolveRelativeToWorkspace path) with
    | .error e => .error e
    | .ok abs =>
      match ws.fs.lookup abs with
      | none => .error (.fsMissing abs)
      | some k =>
        .ok (Label.parseAbsolute ("//" ++
          labelCore
            (if k == FsNode.file then (pparse (ws.resolveRelativeToWorkspace path)).dir
             else ws.resolveRelativeToWorkspace path)
            target))

/-- The kebab-cased, separator-substituted, optionally suffixed target name
computed inside `Workspace.getLabelForFile`. -/
def suffixedName (ws : Workspace) (parsed : ParsedPath) (suffix : Option String)
    (stripFileExt : Bool) : String :=
  let snake := kebabCase (if stripFileExt then parsed.name else parsed.base)
  let snake := if ws.suffix_separator ≠ "-" then replaceDash ws.suffix_separator snake else snake
  match suffix with
  | some s => snake ++ ws.suffix_separator ++ s
  | none => snake

/-- `Workspace.getLabelForFile`: static mapping, then (when enabled) the bazel
query, then the best-guess heuristic label `//dir:kebab(name)`. -/
def Workspace.getLabelForFile (ws : Workspace) (fuel : Nat) (path : String)
    (suffix : Option String) (stripFileExt : Bool) : Except RErr Label :=
  match ws.tryResolveLabelFromStaticMapping (ws.resolveRelativeToWorkspace path) none none with
  | some l => .ok l
  | none =>
    match (if ws.use_bazel_query then ws.query (ws.resolveRelativeToWorkspace path) else none) with
    | some l => .ok l
    | none =>
      ws.getLabelFor fuel (pparse (ws.resolveRelativeToWorkspace path)).dir
        (some (suffixedName ws (pparse (ws.resolveRelativeToWorkspace path)) suffix stripFileExt))

namespace TsGen

/-- `TsGenerator.calculateTsDependencyLabel`: static mapping first (with `.`
as the relative prefix), then the file heuristic for relative imports, else
the npm-package truncation.  In the source a falsy heuristic result would
raise `Unable to generate label for`, but `getLabelForFile` always returns a
label or throws, so that branch is unreachable; a thrown `lstatSync` error
propagates, which the `Except` propagation mirrors. -/
def calculateTsDependencyLabel (ws : Workspace) (fuel : Nat) (imp npmWorkspace : String) :
    Except RErr Label :=
  match ws.tryResolveLabelFromStaticMapping imp none (some ".") with
  | some l => .ok l
  | none =>
    if ws.isWorkspaceRelative imp || strBegins imp "." then
      ws.getLabelForFile fuel (imp ++ ".ts") none true
    else
      .ok (Label.parseAbsolute ("@" ++ npmWorkspace ++ "//" ++
        (if strBegins imp "@" then pjoinList ((segsOf imp).take 2)
         else pjoinList ((segsOf imp).take 1))))

/-- The self-import candidate checked by
`TsGenerator.resolveLabelFromModuleSpecifier`: the workspace-relative form of
the specifier with `.ts` appended when absent. -/
def selfCandidate (ws : Workspace) (specText : String) : String :=
  if strEnds (ws.resolveRelativeToWorkspace specText) ".ts" then
    ws.resolveRelativeToWorkspace specText
  else ws.resolveRelativeToWorkspace specText ++ ".ts"

/-- `TsGenerator.resolveLabelFromModuleSpecifier`: an early `return` (here
`ok none`) when the candidate is already in the rule's source set, otherwise
the resolution cascade.  The verbose log line does not alter control flow and
is not modelled. -/
def resolveLabelFromModuleSpecifier (ws : Workspace) (fuel : Nat) (specText : String)
    (tsFiles : List String) (npmWorkspace : String) : Except RErr (Option Label) :=
  if tsFiles.contains (selfCandidate ws specText) then .ok none
  else
    match calculateTsDependencyLabel ws fuel specText npmWorkspace with
    | .ok l => .ok (some l)
    | .error e => .error e

/-- JavaScript `Set.prototype.add` on the dependency set of serialized
labels (insertion order kept, duplicates ignored). -/
def addLabel (labels : List String) (l : String) : List String :=
  if labels.contains l then labels else labels ++ [l]

/-- The per-file loop of `TsGenerator.processTsFileAst`: each import or
re-export module-specifier string is resolved and the serialized label added
to the dependency set; a `none` (self-import or filtered falsy result) adds
nothing, and a thrown error aborts the pass. -/
def processSpecs (ws : Workspace) (fuel : Nat) (tsFiles : List String) (npmWorkspace : String) :
    List String → List String → Except RErr (List String)
  | [], labels => .ok labels
  | s :: rest, labels =>
    match resolveLabelFromModuleSpecifier ws fuel s tsFiles npmWorkspace with
    | .error e => .error e
    | .ok none => processSpecs ws fuel tsFiles npmWorkspace rest labels
    | .ok (some l) => processSpecs ws fuel tsFiles npmWorkspace rest (addLabel labels (Label.toStr l))

/-- The source-file filter of `TsGenerator.generate`: keep `.ts` files, and
when `ignore_spec_files` is set drop `.spec.ts` files.  The resulting list is
both the rule's `srcs` (after basename extraction) and the set of files
parsed for imports. -/
def tsFilesOf (files : List String) (ignoreSpecFiles : Bool) : List String :=
  (files.filter (fun f => strEnds f ".ts")).filter
    (fun f => !(ignoreSpecFiles && strEnds f ".spec.ts"))

end TsGen

/-- The `coerce` applied to the `path` positional in `commonYargsOptions`
(`src/flags.ts`): run at flag-parse time, before any `Workspace` exists, it
fatally rejects a path starting with `..` and passes anything else through. -/
def coercePath (arg : String) : Except String String :=
  if strBegins arg ".." then .error "Path must not attempt to escape base_dir" else .ok arg

/-- The flags consulted by `Workspace.invokeBuildozer`. -/
structure BuildozerFlags where
  buildozer_commands_file : String
  generate_build_files : Bool
  clean_commands_file : Bool
deriving DecidableEq

/-- The externally observable outcome of one `Workspace.invokeBuildozer` run:
warnings and errors the tool itself reports, the commands file written (if
any), whether the buildozer subprocess was invoked, and whether the commands
file was removed afterwards. -/
structure InvokeOutcome where
  warnings : List String
  errors : List String
  commandsFileWritten : Option String
  editorInvoked : Bool
  commandsFileRemoved : Bool
deriving DecidableEq

/-- `Workspace.invokeBuildozer`, with the accumulated buildozer command list
and the editor subprocess exit code as inputs.  The function is total: no
branch aborts the process.  The console-echo and BUILD-file touch/nuke side
effects do not affect the modelled outcome fields. -/
def invokeBuildozer (fl : BuildozerFlags) (base_dir : String) (commands : List String)
    (exitCode : Int) : InvokeOutcome :=
  if fl.buildozer_commands_file = "" then ⟨[], [], none, false, false⟩
  else if commands.isEmpty then ⟨["No buildozer commands were generated"], [], none, false, false⟩
  else
    if !fl.generate_build_files then
      ⟨[], [], some (pjoin base_dir fl.buildozer_commands_file), false, false⟩
    else
      ⟨[], [], some (pjoin base_dir fl.buildozer_commands_file), true,
        (exitCode == 0 || exitCode == 3) && fl.clean_commands_file⟩

deriving instance DecidableEq for Except

/-- A small workspace fixture: `base_dir` `/ws` analyzed at directory `foo`,
with `foo/a.ts` the only source file on disk. -/
def wsC1 : Workspace :=
  { base_dir := "/ws", path := "foo", listing := ["foo", "BUILD", "WORKSPACE"],
    label_mapping := [], suffix_separator := "-", use_bazel_query := false,
    query := fun _ => none,
    fs := ⟨[("/ws", .dir), ("/ws/foo", .dir), ("/ws/foo/a.ts", .file)]⟩ }

/-- Workspace fixture with a static label mapping for `foo/util` and no
`util.ts` anywhere on disk. -/
def wsC2 : Workspace :=
  { base_dir := "/ws", path := "foo", listing := ["foo", "BUILD", "WORKSPACE"],
    label_mapping := [("foo/util", "//foo:util")], suffix_separator := "-",
    use_bazel_query := false, query := fun _ => none,
    fs := ⟨[("/ws", .dir), ("/ws/foo", .dir)]⟩ }

/-- Workspace fixture analyzed at directory `foo`. -/
def wsC3 : Workspace :=
  { base_dir := "/ws", path := "foo", listing := ["foo", "BUILD", "WORKSPACE"],
    label_mapping := [], suffix_separator := "-", use_bazel_query := false,
    query := fun _ => none, fs := ⟨[("/ws", .dir), ("/ws/foo", .dir)]⟩ }

/-- Workspace fixture whose top-level listing has no entry named `@scope`. -/
def wsC4 : Workspace :=
  { base_dir := "/ws", path := "src", listing := ["src", "BUILD", "WORKSPACE"],
    label_mapping := [], suffix_separator := "-", use_bazel_query := false,
    query := fun _ => none, fs := ⟨[("/ws", .dir), ("/ws/src", .dir)]⟩ }

/-- Workspace fixture analyzed at `.`: the analyzed directory normalizes to
`.`, which is never a member of the top-level listing, so joining it onto a
path is the identity and the `resolveAbsolute` recursion can loop. -/
def wsC5 : Workspace :=
  { base_dir := "/ws", path := ".", listing := ["src", "BUILD", "WORKSPACE"],
    label_mapping := [], suffix_separator := "-", use_bazel_query := false,
    query := fun _ => none, fs := ⟨[("/ws", .dir), ("/ws/src", .dir)]⟩ }

/-- Workspace fixture analyzed at `src`, whose name is in the top-level
listing, so one `resolveRelativeToWorkspace` hop suffices. -/
def wsC5b : Workspace :=
  { base_dir := "/ws", path := "src", listing := ["src", "BUILD", "WORKSPACE"],
    label_mapping := [], suffix_separator := "-", use_bazel_query := false,
    query := fun _ => none, fs := ⟨[("/ws", .dir), ("/ws/src", .dir)]⟩ }

/-- Workspace fixture for the dependency-set run. -/
def wsC8 : Workspace :=
  { base_dir := "/ws", path := "src", listing := ["src", "BUILD", "WORKSPACE"],
    label_mapping := [], suffix_separator := "-", use_bazel_query := false,
    query := fun _ => none, fs := ⟨[("/ws", .dir), ("/ws/src", .dir)]⟩ }

/-- Workspace fixture with both `foo/a.ts` and `foo/a.spec.ts` on disk. -/
def wsC10 : Workspace :=
  { base_dir := "/ws", path := "foo", listing := ["foo", "BUILD", "WORKSPACE"],
    label_mapping := [], suffix_separator := "-", use_bazel_query := false,
    query := fun _ => none,
    fs := ⟨[("/ws", .dir), ("/ws/foo", .dir), ("/ws/foo/a.ts", .file),
            ("/ws/foo/a.spec.ts", .file)]⟩ }

/-- Adding a label already in the dependency set is the identity. -/
theorem addLabel_of_mem (acc : List String) (l : String) (h : l ∈ acc) :
    TsGen.addLabel acc l = acc := by
  simp [TsGen.addLabel, List.elem_eq_mem, h]

/-- `addLabel` preserves the no-duplicates invariant. -/
theorem addLabel_nodup (acc : List String) (l : String) (h : acc.Nodup) :
    (TsGen.addLabel acc l).Nodup := by
  by_cases hm : l ∈ acc
  · rw [addLabel_of_mem acc l hm]; exact h
  · simp [TsGen.addLabel, List.elem_eq_mem, hm, List.nodup_append, h]

/-- The dependency-set loop preserves the no-duplicates invariant. -/
theorem processSpecs_nodup (ws : Workspace) (fuel : Nat) (tsFiles : List String)
    (npm : String) :
    ∀ (specs acc res : List String), acc.Nodup →
      TsGen.processSpecs ws fuel tsFiles npm specs acc = .ok res → res.Nodup := by
  intro specs
  induction specs with
  | nil =>
    intro acc res h hr
    simp only [TsGen.processSpecs] at hr
    cases hr
    exact h
  | cons s rest ih =>
    intro acc res h hr
    simp only [TsGen.processSpecs] at hr
    cases hres : TsGen.resolveLabelFromModuleSpecifier ws fuel s tsFiles npm with
    | error e => rw [hres] at hr; cases hr
    | ok o =>
      rw [hres] at hr
      cases o with
      | none => exact ih acc res h hr
      | some l => exact ih _ res (addLabel_nodup acc (Label.toStr l) h) hr

/-- No member of the filtered source set ends in `.spec.ts` when
`ignore_spec_files` is enabled. -/
theorem tsFiles_no_spec (files : List String) (f : String)
    (h : f ∈ TsGen.tsFilesOf files true) : strEnds f ".spec.ts" = false := by
  have h2 := (List.mem_filter.mp h).2
  simpa using h2

/-- A candidate path ending in `.spec.ts` is never in the filtered source
set. -/
theorem tsFiles_contains_spec_false (files : List String) (cand : String)
    (h : strEnds cand ".spec.ts" = true) :
    (TsGen.tsFilesOf files true).contains cand = false := by
  by_cases hm : cand ∈ TsGen.tsFilesOf files true
  · exact absurd (tsFiles_no_spec files cand hm) (by simp [h])
  · simp [List.elem_eq_mem, hm]

/-- C2: an import specifier whose key (workspace-normalized when it starts
with `.`) is in the static label mapping resolves to exactly that entry's
Label; the workspace (hence the filesystem and the query oracle) is
arbitrary, so neither the query nor the heuristic strategy is consulted and
on-disk state is irrelevant. -/
theorem static_mapping_takes_precedence (ws : Workspace) (fuel : Nat) (imp npm v : String)
    (h : ws.label_mapping.lookup (staticKey ws imp (some ".")) = some v) :
    TsGen.calculateTsDependencyLabel ws fuel imp npm = .ok (Label.parseAbsolute v) := by
  simp only [TsGen.calculateTsDependencyLabel, Workspace.tryResolveLabelFromStaticMapping, h]

/-- Witness for C2: in `wsC2` the relative import `./util` normalizes to
`foo/util`, hits the static mapping, and returns `//foo:util` although no
`util.ts` exists anywhere on disk. -/
theorem static_mapping_takes_precedence_witness :
    TsGen.calculateTsDependencyLabel wsC2 1 "./util" "npm" =
      .ok (Label.parseAbsolute "//foo:util") ∧
    wsC2.fs.lookup "/ws/foo/util.ts" = none ∧
    Label.toStr (Label.parseAbsolute "//foo:util") = "//foo:util" :=
  ⟨static_mapping_takes_precedence wsC2 1 "./util" "npm" "//foo:util" (by decide),
   by decide, by decide⟩

/-- C3: when the workspace-relative form of a module specifier (with `.ts`
appended when absent) is already in the rule's source set, the extractor
returns early with no label — the resolution cascade is never entered (the
workspace is arbitrary, so this holds even when the cascade would have
succeeded) — and processing such a specifier leaves the dependency set
unchanged. -/
theorem self_import_early_exit (ws : Workspace) (fuel : Nat) (spec npm : String)
    (tsFiles labels : List String)
    (h : tsFiles.contains (TsGen.selfCandidate ws spec) = true) :
    TsGen.resolveLabelFromModuleSpecifier ws fuel spec tsFiles npm = .ok none ∧
    TsGen.processSpecs ws fuel tsFiles npm [spec] labels = .ok labels := by
  refine ⟨?_, ?_⟩ <;>
    simp only [TsGen.processSpecs, TsGen.resolveLabelFromModuleSpecifier, h, if_true]

/-- Witness for C3: in `wsC3` the import `./b` from rule sources
`["foo/b.ts", "foo/c.ts"]` resolves to the in-rule file `foo/b.ts` and is
skipped, leaving the accumulated set `["@npm//lodash"]` unchanged. -/
theorem self_import_early_exit_witness :
    TsGen.resolveLabelFromModuleSpecifier wsC3 1 "./b" ["foo/b.ts", "foo/c.ts"] "npm" =
      .ok none ∧
    TsGen.processSpecs wsC3 1 ["foo/b.ts", "foo/c.ts"] "npm" ["./b"] ["@npm//lodash"] =
      .ok ["@npm//lodash"] :=
  self_import_early_exit wsC3 1 "./b" "npm" ["foo/b.ts", "foo/c.ts"] ["@npm//lodash"]
    (by decide)

/-- C4: a non-relative import specifier with no static mapping entry and no
matching workspace top-level directory resolves to a label rooted at the
configured npm workspace, the specifier truncated to its first two segments
when it starts with `@` and to its first segment otherwise, with no explicit
target appended. -/
theorem npm_package_truncation (ws : Workspace) (fuel : Nat) (imp npm : String)
    (h1 : ws.label_mapping.lookup imp = none)
    (h2 : ws.isWorkspaceRelative imp = false)
    (h3 : strBegins imp "." = false) :
    TsGen.calculateTsDependencyLabel ws fuel imp npm =
      .ok (Label.parseAbsolute ("@" ++ npm ++ "//" ++
        (if strBegins imp "@" then pjoinList ((segsOf imp).take 2)
         else pjoinList ((segsOf imp).take 1)))) := by
  have hk : staticKey ws imp (some ".") = imp := by simp [staticKey, h3]
  simp only [TsGen.calculateTsDependencyLabel, Workspace.tryResolveLabelFromStaticMapping,
    hk, h1, h2, h3, Option.map_none', Bool.or_self, Bool.false_eq_true, if_false]

/-- Witness for C4: `@scope/pkg/deep/path` in `wsC4` resolves to the label
serialized as `@npm//@scope/pkg` — truncated to two segments, the target
left at the package default. -/
theorem npm_package_truncation_witness :
    TsGen.calculateTsDependencyLabel wsC4 1 "@scope/pkg/deep/path" "npm" =
      .ok (Label.parseAbsolute "@npm//@scope/pkg") ∧
    Label.toStr (Label.parseAbsolute "@npm//@scope/pkg") = "@npm//@scope/pkg" ∧
    (Label.parseAbsolute "@npm//@scope/pkg").target = "pkg" :=
  ⟨(npm_package_truncation wsC4 1 "@scope/pkg/deep/path" "npm" (by decide) (by decide)
      (by decide)).trans (by decide),
   by decide, by decide⟩

/-- C7: with a configured commands-file path, an empty accumulated buildozer
command sequence produces exactly one warning, no reported error, no written
command file, and no editor subprocess, for every exit-code environment. -/
theorem empty_commands_warns_only (fl : BuildozerFlags) (base : String) (c : Int)
    (hfile : ¬ fl.buildozer_commands_file = "") :
    invokeBuildozer fl base [] c =
      ⟨["No buildozer commands were generated"], [], none, false, false⟩ := by
  simp [invokeBuildozer, hfile]

/-- Witness for C7: the default flag configuration with zero commands. -/
theorem empty_commands_warns_only_witness :
    invokeBuildozer ⟨"commands.txt", true, true⟩ "/ws" [] 0 =
      ⟨["No buildozer commands were generated"], [], none, false, false⟩ :=
  empty_commands_warns_only ⟨"commands.txt", true, true⟩ "/ws" 0 (by decide)

/-- C9: any `path` argument beginning with the parent-directory traversal
token `..` is rejected by the flag coercion with the fatal escape message,
before any resolution can run. -/
theorem leading_traversal_rejected (p : String) (h : strBegins p ".." = true) :
    coercePath p = .error "Path must not attempt to escape base_dir" := by
  simp [coercePath, h]

/-- Witness for C9: the concrete path `../outside` is rejected. -/
theorem leading_traversal_rejected_witness :
    coercePath "../outside" = .error "Path must not attempt to escape base_dir" :=
  leading_traversal_rejected "../outside" (by decide)

/-- Counterexample to C1: in `wsC1` no file exists at the resolved path
`foo/bar.ts` (only `foo/a.ts` is on disk), yet the relative import `./bar`
does not fail — the heuristic returns the best-guess label `//foo:bar`
derived from the existing containing directory, and that label would be added
to the dependency set. -/
theorem ts_relative_missing_file_counterexample :
    TsGen.calculateTsDependencyLabel wsC1 3 "./bar" "npm" = .ok ⟨"", "foo", "bar"⟩ ∧
    wsC1.fs.lookup "/ws/foo/bar.ts" = none ∧
    Label.toStr ⟨"", "foo", "bar"⟩ = "//foo:bar" := by
  exact ⟨by decide, by decide, by decide⟩

/-- C1 (amended): a relative import fails only when the resolved path's
containing directory is itself absent from the filesystem — then the
`lstatSync` inside `getLabelFor` throws (modelled as `fsMissing`), the error
propagates out of the extractor, and no label is produced; when the
directory exists the heuristic returns a best-guess label even for a missing
file. -/
theorem ts_relative_missing_dir_fails (ws : Workspace) (fuel : Nat) (imp npm A : String)
    (h1 : ws.tryResolveLabelFromStaticMapping imp none (some ".") = none)
    (h2 : (ws.isWorkspaceRelative imp || strBegins imp ".") = true)
    (h3 : ws.tryResolveLabelFromStaticMapping
        (ws.resolveRelativeToWorkspace (imp ++ ".ts")) none none = none)
    (h4 : ws.use_bazel_query = false)
    (h5 : ws.tryResolveLabelFromStaticMapping
        (ws.resolveRelativeToWorkspace
          (pparse (ws.resolveRelativeToWorkspace (imp ++ ".ts"))).dir) none none = none)
    (h6 : ws.resolveAbsoluteF fuel
        (ws.resolveRelativeToWorkspace
          (pparse (ws.resolveRelativeToWorkspace (imp ++ ".ts"))).dir) = .ok A)
    (h7 : ws.fs.lookup A = none) :
    TsGen.calculateTsDependencyLabel ws fuel imp npm = .error (.fsMissing A) := by
  simp only [TsGen.calculateTsDependencyLabel, h1, h2, if_true,
    Workspace.getLabelForFile, h3, h4, Bool.false_eq_true, if_false,
    Workspace.getLabelFor, h5, h6, h7]

/-- Witness for the amended C1: the import `./sub/bar` from `wsC1` resolves
under the nonexistent directory `foo/sub`, and resolution fails with the
filesystem error at `/ws/foo/sub`. -/
theorem ts_relative_missing_dir_fails_witness :
    TsGen.calculateTsDependencyLabel wsC1 3 "./sub/bar" "npm" =
      .error (.fsMissing "/ws/foo/sub") :=
  ts_relative_missing_dir_fails wsC1 3 "./sub/bar" "npm" "/ws/foo/sub" (by decide)
    (by decide) (by decide) (by decide) (by decide) (by decide) (by decide)

/-- The `resolveAbsolute` recursion in `wsC5` maps `oops.ts` to itself
(joining onto the analyzed directory `.` is the identity), so every fuel
bound is exhausted. -/
theorem wsC5_resolveAbsolute_loops (n : Nat) :
    wsC5.resolveAbsoluteF n "oops.ts" = .error .outOfFuel := by
  induction n with
  | zero => rfl
  | succ n ih =>
    have hb : strBegins "oops.ts" "/" = false := by decide
    have hw : wsC5.isWorkspaceRelative "oops.ts" = false := by decide
    have hr : wsC5.resolveRelativeToWorkspace "oops.ts" = "oops.ts" := by decide
    simp only [Workspace.resolveAbsoluteF, hb, hw, hr, Bool.false_eq_true, if_false, ih]

/-- Counterexample to C5: `resolveAbsolute` does not terminate for every
input — in `wsC5` (analyzed path `.`) the input `oops.ts`, which is neither
absolute nor workspace-relative nor made so by the one-hop retry, recurses
forever instead of failing fast: no amount of fuel produces a result. -/
theorem resolveAbsolute_nontermination_counterexample :
    ¬ ∃ (n : Nat) (s : String), wsC5.resolveAbsoluteF n "oops.ts" = .ok s := by
  rintro ⟨n, s, h⟩
  rw [wsC5_resolveAbsolute_loops n] at h
  exact Except.noConfusion h

/-- C5 (amended): absolute paths pass through, workspace-relative paths are
joined onto `base_dir`, and a path whose single `resolveRelativeToWorkspace`
hop becomes workspace-relative terminates within two steps; but the code has
no depth guard, and inputs for which the hop never reaches a
workspace-relative or absolute path recurse unboundedly (see the
counterexample) rather than failing fast. -/
theorem resolveAbsolute_one_hop (ws : Workspace) (p : String) (fuel : Nat) :
    (strBegins p "/" = true → ws.resolveAbsoluteF (fuel + 1) p = .ok p) ∧
    (strBegins p "/" = false → ws.isWorkspaceRelative p = true →
      ws.resolveAbsoluteF (fuel + 1) p = .ok (pjoin ws.base_dir p)) ∧
    (strBegins p "/" = false → ws.isWorkspaceRelative p = false →
      strBegins (ws.resolveRelativeToWorkspace p) "/" = false →
      ws.isWorkspaceRelative (ws.resolveRelativeToWorkspace p) = true →
      ws.resolveAbsoluteF (fuel + 2) p =
        .ok (pjoin ws.base_dir (ws.resolveRelativeToWorkspace p))) := by
  refine ⟨fun h1 => ?_, fun h1 h2 => ?_, fun h1 h2 h3 h4 => ?_⟩
  · simp [Workspace.resolveAbsoluteF, h1]
  · simp [Workspace.resolveAbsoluteF, h1, h2]
  · simp [Workspace.resolveAbsoluteF, h1, h2, h3, h4]

/-- Witness for the amended C5: in `wsC5b` the file name `util.ts` is not
workspace-relative, but one hop joins it onto the analyzed directory `src`
and resolution reaches `/ws/src/util.ts` with fuel 2. -/
theorem resolveAbsolute_one_hop_witness :
    wsC5b.resolveAbsoluteF 2 "util.ts" = .ok "/ws/src/util.ts" := by
  have h := (resolveAbsolute_one_hop wsC5b "util.ts" 0).2.2 (by decide) (by decide)
    (by decide) (by decide)
  exact h.trans (by decide)

/-- Counterexample to C6: at editor exit code 1 (with cleanup configured) the
command file is preserved and the subprocess failure produces no reported
error — the `errors` component is empty, contradicting the claim that an
error is reported for non-zero, non-3 exit codes. -/
theorem buildozer_exit_no_error_counterexample :
    invokeBuildozer ⟨"commands.txt", true, true⟩ "/ws" ["new ts_library foo"] 1 =
      ⟨[], [], some "/ws/commands.txt", true, false⟩ := by
  decide

/-- C6 (amended): exit code 3 is treated identically to exit code 0 (the
whole outcome coincides, so cleanup happens exactly when configured); for any
other exit code the command file is preserved on disk and the run is not
aborted (the function still yields an outcome with the editor invoked), but
no error is reported by the tool. -/
theorem buildozer_exit_code_policy (fl : BuildozerFlags) (base : String)
    (commands : List String) (c : Int)
    (hfile : ¬ fl.buildozer_commands_file = "")
    (hcmds : commands.isEmpty = false)
    (hgen : fl.generate_build_files = true) :
    invokeBuildozer fl base commands 3 = invokeBuildozer fl base commands 0 ∧
    (¬ c = 0 → ¬ c = 3 →
      (invokeBuildozer fl base commands c).commandsFileRemoved = false ∧
      (invokeBuildozer fl base commands c).commandsFileWritten =
        some (pjoin base fl.buildozer_commands_file) ∧
      (invokeBuildozer fl base commands c).errors = [] ∧
      (invokeBuildozer fl base commands c).editorInvoked = true) := by
  constructor
  · simp [invokeBuildozer, hfile, hcmds, hgen]
  · intro hc0 hc3
    have h0 : (c == 0) = false := beq_eq_false_iff_ne.mpr hc0
    have h3 : (c == 3) = false := beq_eq_false_iff_ne.mpr hc3
    simp [invokeBuildozer, hfile, hcmds, hgen, h0, h3]

/-- Witness for the amended C6: one accumulated command under the default
flags, compared at exit codes 3, 0 and 1. -/
theorem buildozer_exit_code_policy_witness :
    (invokeBuildozer ⟨"commands.txt", true, true⟩ "/ws" ["new ts_library foo"] 3 =
      invokeBuildozer ⟨"commands.txt", true, true⟩ "/ws" ["new ts_library foo"] 0) ∧
    ((invokeBuildozer ⟨"commands.txt", true, true⟩ "/ws"
        ["new ts_library foo"] 1).commandsFileRemoved = false ∧
     (invokeBuildozer ⟨"commands.txt", true, true⟩ "/ws"
        ["new ts_library foo"] 1).commandsFileWritten =
       some (pjoin "/ws" "commands.txt") ∧
     (invokeBuildozer ⟨"commands.txt", true, true⟩ "/ws"
        ["new ts_library foo"] 1).errors = [] ∧
     (invokeBuildozer ⟨"commands.txt", true, true⟩ "/ws"
        ["new ts_library foo"] 1).editorInvoked = true) :=
  have h := buildozer_exit_code_policy ⟨"commands.txt", true, true⟩ "/ws"
    ["new ts_library foo"] 1 (by decide) (by decide) rfl
  ⟨h.1, h.2 (by decide) (by decide)⟩

/-- C8: the dependency set has set semantics — adding an already-present
serialized label is the identity, and any successful extraction pass started
from the empty set yields a duplicate-free dependency list. -/
theorem dep_set_dedup :
    (∀ (acc : List String) (l : String), l ∈ acc → TsGen.addLabel acc l = acc) ∧
    (∀ (ws : Workspace) (fuel : Nat) (tsFiles : List String) (npm : String)
       (specs res : List String),
       TsGen.processSpecs ws fuel tsFiles npm specs [] = .ok res → res.Nodup) :=
  ⟨addLabel_of_mem,
   fun ws fuel tsFiles npm specs res h =>
     processSpecs_nodup ws fuel tsFiles npm specs [] res List.nodup_nil h⟩

/-- Witness for C8: the specifier `lodash` occurring twice in one pass over
`wsC8` yields the single dependency `@npm//lodash`, and re-adding it is the
identity. -/
theorem dep_set_dedup_witness :
    TsGen.addLabel ["@npm//lodash"] "@npm//lodash" = ["@npm//lodash"] ∧
    TsGen.processSpecs wsC8 1 [] "npm" ["lodash", "lodash"] [] = .ok ["@npm//lodash"] ∧
    List.Nodup ["@npm//lodash"] :=
  have h2 : TsGen.processSpecs wsC8 1 [] "npm" ["lodash", "lodash"] [] =
      .ok ["@npm//lodash"] := by decide
  ⟨dep_set_dedup.1 ["@npm//lodash"] "@npm//lodash" (by decide), h2,
   dep_set_dedup.2 wsC8 1 [] "npm" ["lodash", "lodash"] ["@npm//lodash"] h2⟩

/-- C10: with `ignore_spec_files` enabled, no `.spec.ts` file survives the
source filter (so it is neither listed in `srcs` nor parsed for imports),
and an import whose self-import candidate ends in `.spec.ts` is never
treated as a self-import — it goes through the ordinary resolution
cascade. -/
theorem ignore_spec_files_excluded :
    (∀ (files : List String) (f : String),
      f ∈ TsGen.tsFilesOf files true → strEnds f ".spec.ts" = false) ∧
    (∀ (ws : Workspace) (fuel : Nat) (spec npm : String) (files : List String),
      strEnds (TsGen.selfCandidate ws spec) ".spec.ts" = true →
      TsGen.resolveLabelFromModuleSpecifier ws fuel spec (TsGen.tsFilesOf files true) npm =
        match TsGen.calculateTsDependencyLabel ws fuel spec npm with
        | .ok l => .ok (some l)
        | .error e => .error e) := by
  refine ⟨tsFiles_no_spec, fun ws fuel spec npm files h => ?_⟩
  simp only [TsGen.resolveLabelFromModuleSpecifier,
    tsFiles_contains_spec_false files _ h, Bool.false_eq_true, if_false]

/-- Witness for C10: in `wsC10` with directory files `foo/a.ts` and
`foo/a.spec.ts`, the spec file is dropped from the rule's sources while
`foo/a.ts` is kept, and the import `./a.spec` resolves to the ordinary
best-guess dependency `//foo:a-spec` instead of being skipped as a
self-import. -/
theorem ignore_spec_files_excluded_witness :
    ("foo/a.ts" ∈ TsGen.tsFilesOf ["foo/a.ts", "foo/a.spec.ts"] true ∧
     strEnds "foo/a.ts" ".spec.ts" = false) ∧
    "foo/a.spec.ts" ∉ TsGen.tsFilesOf ["foo/a.ts", "foo/a.spec.ts"] true ∧
    TsGen.resolveLabelFromModuleSpecifier wsC10 3 "./a.spec"
      (TsGen.tsFilesOf ["foo/a.ts", "foo/a.spec.ts"] true) "npm" =
      .ok (some (Label.parseAbsolute "//foo:a-spec")) :=
  ⟨⟨by decide, ignore_spec_files_excluded.1 ["foo/a.ts", "foo/a.spec.ts"] "foo/a.ts"
      (by decide)⟩,
   by decide,
   (ignore_spec_files_excluded.2 wsC10 3 "./a.spec" "npm" ["foo/a.ts", "foo/a.spec.ts"]
      (by decide)).trans (by decide)⟩

end Bzlgen
